import Mathlib

/-!
# Verification of the Streamlit_Feiras event-registration app

A shallow embedding, in Lean 4, of the logic of `src/app.py`: the
city-string decomposition, the SQLite-backed account and event stores
(`register_user`, `login_user`, `insert_event`, `fetch_events`,
`update_event`), the city reference loader (`carregar_cidades`), and the
create/edit form controllers from `main`.  Python strings are modelled as
Lean `String` (with helper functions over their character lists), SQL
tables as lists of rows plus an auto-increment counter, and calendar
dates as an abstract type.
-/

namespace Feiras

/-! ## String primitives (Python `in`, `rsplit(sep, 1)`, `strip`, `replace`) -/

/-- `leadsWith pat l` is true when `pat` is an initial segment of `l`. -/
def leadsWith : List Char → List Char → Bool
  | [], _ => true
  | _ :: _, [] => false
  | p :: ps, c :: cs => p == c && leadsWith ps cs

/-- Python's substring test `pat in s`, on character lists. -/
def containsSub (pat : List Char) : List Char → Bool
  | [] => pat.isEmpty
  | c :: t => leadsWith pat (c :: t) || containsSub pat t

/-- Split a character list at the last occurrence of `pat`: returns the
part before that occurrence and the part after it, or `none` when `pat`
does not occur.  `s.rsplit(pat, 1)` in Python is `[l, r]` when this is
`some (l, r)` and `[s]` when it is `none`. -/
def lastSplit (pat : List Char) : List Char → Option (List Char × List Char)
  | [] => none
  | c :: t =>
    match lastSplit pat t with
    | some (l, r) => some (c :: l, r)
    | none =>
      if leadsWith pat (c :: t) then some ([], (c :: t).drop pat.length) else none

/-- Python `str.strip()`: drop whitespace at both ends. -/
def stripChars (l : List Char) : List Char :=
  ((l.dropWhile Char.isWhitespace).reverse.dropWhile Char.isWhitespace).reverse

/-- Python `s.strip()` on `String`. -/
def pyStrip (s : String) : String := ⟨stripChars s.data⟩

/-! ## City decomposition

The inline decomposition used by `main` for both the create form and the
edit form: when the selected string contains both `"("` and `")"`, it is
`rsplit` on the last `" ("`, the left part is stripped, and the right
part has every `")"` removed and is stripped; otherwise the whole string
(stripped) is the city and the state is empty.  When the guard holds but
`" ("` does not occur, `rsplit` yields a single part and the subscript
`partes[1]` raises `IndexError`; that outcome is `none`. -/
def splitCity (s : String) : Option (String × String) :=
  if containsSub ['('] s.data && containsSub [')'] s.data then
    match lastSplit [' ', '('] s.data with
    | some (l, r) => some (⟨stripChars l⟩, ⟨stripChars (r.filter (fun c => c != ')'))⟩)
    | none => none
  else
    some (pyStrip s, "")

/-- The decomposition rule as the specification words it: split on the
last occurrence of `" ("`; the left part is the city name and the right
part minus the trailing `")"` is the state code; when that delimiter does
not occur the whole string is the city name and the state is empty. -/
def splitCitySpec (s : String) : String × String :=
  match lastSplit [' ', '('] s.data with
  | some (l, r) => (⟨l⟩, ⟨if r.getLast? = some ')' then r.dropLast else r⟩)
  | none => (s, "")

/-! ## Data model

Calendar dates are opaque here: nothing in the program computes with
them, they are only stored and compared against `None`. -/

/-- An abstract calendar date. -/
abbrev Date := Nat

/-- A row of the `users` table. -/
structure UserRow where
  id : Nat
  username : String
  password : String
deriving DecidableEq, Repr

/-- The `users` table: its rows in rowid order plus the auto-increment
counter for the next `id`. -/
structure UserStore where
  rows : List UserRow
  nextId : Nat
deriving DecidableEq, Repr

/-- The mutable fields of an event row: everything except `id` and
`user_id`, in the order of the `events` schema. -/
structure EventFields where
  nome_evento : String
  localEvento : String
  cidade : String
  estado : String
  data_inicio : Option Date
  data_fim : Option Date
  qtd_pessoas : Int
  descricao : String
  categoria : String
  segmento : String
deriving DecidableEq, Repr

/-- A row of the `events` table (`localEvento` stands for the SQL column
`local`, a reserved word in Lean). -/
structure EventRow where
  id : Nat
  user_id : Nat
  fields : EventFields
deriving DecidableEq, Repr

/-- The `events` table: rows in rowid order plus the auto-increment
counter. -/
structure EventStore where
  rows : List EventRow
  nextId : Nat
deriving DecidableEq, Repr

/-! ## Store operations (`app.py` lines 57–160) -/

/-- `register_user(username, password)`: inserts the new user and
returns `(True, success message)`, unless the `UNIQUE` constraint on
`username` is violated, in which case SQLite raises, the `except` branch
returns `(False, str(e))`, and nothing is inserted. -/
def register_user (db : UserStore) (username password : String) :
    UserStore × (Bool × String) :=
  if db.rows.any (fun r => r.username == username) then
    (db, (false, "UNIQUE constraint failed: users.username"))
  else
    ({ rows := db.rows ++ [⟨db.nextId, username, password⟩], nextId := db.nextId + 1 },
     (true, "Usuário registrado com sucesso."))

/-- `login_user(username, password)`: `SELECT id FROM users WHERE
username = ? AND password = ?` followed by `fetchone`; returns
`(True, user_id)` on a match and `(False, None)` otherwise. -/
def login_user (db : UserStore) (username password : String) : Bool × Option Nat :=
  match db.rows.find? (fun r => r.username == username && r.password == password) with
  | some r => (true, some r.id)
  | none => (false, none)

/-- `insert_event(user_id, ...)`: appends a row with the auto-assigned
`id` and the given fields. -/
def insert_event (db : EventStore) (user_id : Nat) (f : EventFields) : EventStore :=
  { rows := db.rows ++ [⟨db.nextId, user_id, f⟩], nextId := db.nextId + 1 }

/-- `fetch_events(user_id)`: `SELECT * FROM events WHERE user_id = ?`,
rows in rowid (insertion) order. -/
def fetch_events (db : EventStore) (user_id : Nat) : List EventRow :=
  db.rows.filter (fun r => r.user_id == user_id)

/-- `update_event(event_id, ...)`: `UPDATE events SET ... WHERE id = ?`;
every row whose `id` matches gets all ten mutable columns overwritten,
`id` and `user_id` untouched; rows that do not match are unchanged, and
a missing `event_id` updates nothing. -/
def update_event (db : EventStore) (event_id : Nat) (f : EventFields) : EventStore :=
  { db with rows := db.rows.map (fun r => if r.id = event_id then { r with fields := f } else r) }

/-! ## City reference loader (`carregar_cidades`, lines 163–180) -/

/-- One entry of `cidades.json`'s top-level `"data"` list. -/
structure CityEntry where
  nome : String
  uf : String
deriving DecidableEq, Repr

/-- The display string `f"{cid_nome} ({cid_uf})"`. -/
def displayCity (e : CityEntry) : String :=
  e.nome ++ " (" ++ e.uf ++ ")"

/-- `carregar_cidades()`: `none` models an absent `cidades.json` (the
`os.path.exists` guard returns `[]`); otherwise every entry is mapped to
its display string and the list is sorted. -/
def carregar_cidades (dataset : Option (List CityEntry)) : List String :=
  match dataset with
  | none => []
  | some lista => (lista.map displayCity).mergeSort (fun a b => decide (a ≤ b))

/-! ## Session state and form controllers (`main`, lines 187–449) -/

/-- The `st.session_state` variables used by `main`. -/
structure Session where
  logged_in : Bool
  user_id : Option Nat
  username : Option String
  edit_event_id : Option Nat
deriving DecidableEq, Repr

/-- A message surfaced to the user (`st.error` / `st.success` / `st.info`). -/
inductive Msg where
  | error (text : String)
  | success (text : String)
  | info (text : String)
deriving DecidableEq, Repr

/-- The widget values of the create form (`form_evento`).  `st.date_input`
may hold `None`; `st.number_input(min_value=1)` yields an `Int` that the
widget keeps at 1 or above. -/
structure CreateForm where
  nome_evento : String
  localEvento : String
  cidade_selecionada : String
  data_inicio : Option Date
  data_fim : Option Date
  qtd_pessoas : Int
  categoria : String
  segmento : String
  descricao : String
deriving DecidableEq, Repr

/-- The create-form submit handler (lines 278–322): the `elif` validation
chain, then the city split, then `insert_event`.  The session is returned
unchanged on every path; a split failure (Python `IndexError`, raised
before the `try`) inserts nothing. -/
def handleCreate (db : EventStore) (sess : Session) (f : CreateForm) :
    EventStore × Session × Msg :=
  if pyStrip f.nome_evento = "" then (db, sess, .error "Preencha o Nome do Evento.")
  else if pyStrip f.localEvento = "" then (db, sess, .error "Preencha o Local.")
  else if f.cidade_selecionada = "Selecione..." then (db, sess, .error "Selecione a Cidade.")
  else if f.data_inicio = none then (db, sess, .error "Selecione a Data de Início.")
  else if f.data_fim = none then (db, sess, .error "Selecione a Data de Fim.")
  else if f.categoria = "Selecione..." then (db, sess, .error "Selecione uma Categoria.")
  else if pyStrip f.segmento = "" then (db, sess, .error "Preencha o Segmento.")
  else if pyStrip f.descricao = "" then (db, sess, .error "Preencha a Descrição do Evento.")
  else
    match splitCity f.cidade_selecionada with
    | none => (db, sess, .error "IndexError: list index out of range")
    | some (cid_nome, uf) =>
      (insert_event db (sess.user_id.getD 0)
        { nome_evento := pyStrip f.nome_evento
          localEvento := pyStrip f.localEvento
          cidade := cid_nome
          estado := uf
          data_inicio := f.data_inicio
          data_fim := f.data_fim
          qtd_pessoas := f.qtd_pessoas
          descricao := pyStrip f.descricao
          categoria := pyStrip f.categoria
          segmento := pyStrip f.segmento },
       sess, .success "Evento cadastrado com sucesso!")

/-- The widget values of the edit form (`form_edicao_evento`). -/
structure EditForm where
  nome_evento : String
  localEvento : String
  cidade_uf : String
  data_inicio : Option Date
  data_fim : Option Date
  qtd_pessoas : Int
  categoria : String
  segmento : String
  descricao : String
deriving DecidableEq, Repr

/-- The edit-form save handler (lines 405–443): one aggregate validation
condition, then the city split, then `update_event` and the clearing of
`edit_event_id`.  On validation failure or split failure nothing is
written and the session is unchanged (the user stays in the edit view). -/
def handleEditSave (db : EventStore) (sess : Session) (edit_id : Nat) (f : EditForm) :
    EventStore × Session × Msg :=
  if pyStrip f.nome_evento = "" ∨ pyStrip f.localEvento = "" ∨
      f.cidade_uf = "Selecione..." ∨ f.categoria = "Selecione..." ∨
      pyStrip f.segmento = "" ∨ pyStrip f.descricao = "" then
    (db, sess, .error "Preencha todos os campos obrigatórios.")
  else
    match splitCity f.cidade_uf with
    | none => (db, sess, .error "IndexError: list index out of range")
    | some (new_cidade, new_uf) =>
      (update_event db edit_id
        { nome_evento := pyStrip f.nome_evento
          localEvento := pyStrip f.localEvento
          cidade := new_cidade
          estado := new_uf
          data_inicio := f.data_inicio
          data_fim := f.data_fim
          qtd_pessoas := f.qtd_pessoas
          descricao := pyStrip f.descricao
          categoria := pyStrip f.categoria
          segmento := pyStrip f.segmento },
       { sess with edit_event_id := none },
       .success "Evento atualizado com sucesso!")

/-- What the user does on the edit screen: submit the form or press
"Cancelar Edição". -/
inductive EditAction where
  | save (f : EditForm)
  | cancel
deriving DecidableEq, Repr

/-- The listing/edit section of `main` (lines 324–449): fetch the user's
events; an empty list short-circuits with an info message; otherwise, if
an event is being edited, a vanished `edit_event_id` is reported as
"Evento não encontrado." and cleared, and the save/cancel actions run. -/
def editController (db : EventStore) (sess : Session) (a : EditAction) :
    EventStore × Session × Option Msg :=
  if (fetch_events db (sess.user_id.getD 0)).isEmpty then
    (db, sess, some (.info "Nenhum evento cadastrado ainda."))
  else
    match sess.edit_event_id with
    | none => (db, sess, none)
    | some edit_id =>
      if ((fetch_events db (sess.user_id.getD 0)).filter
            (fun r => r.id == edit_id)).isEmpty then
        (db, { sess with edit_event_id := none }, some (.error "Evento não encontrado."))
      else
        match a with
        | .cancel => (db, { sess with edit_event_id := none }, none)
        | .save f =>
          match handleEditSave db sess edit_id f with
          | (db2, s2, m) => (db2, s2, some m)

/-! ## Sample data for witnesses -/

/-- A concrete set of event fields used by witness instances. -/
def sampleFields : EventFields :=
  { nome_evento := "Tech Fair", localEvento := "Expo Center",
    cidade := "São Paulo", estado := "SP",
    data_inicio := some 10, data_fim := some 12,
    qtd_pessoas := 100, descricao := "Feira de tecnologia",
    categoria := "Feira", segmento := "Tecnologia" }

/-- A second set of event fields, used as the overwriting values. -/
def sampleFields2 : EventFields :=
  { nome_evento := "Health Congress", localEvento := "Centro de Convenções",
    cidade := "Brasília", estado := "",
    data_inicio := some 20, data_fim := some 21,
    qtd_pessoas := 50, descricao := "Congresso de saúde",
    categoria := "Congresso", segmento := "Saúde" }

/-- A create form with an empty name and every other field filled in. -/
def badNameForm : CreateForm :=
  { nome_evento := "", localEvento := "Expo Center",
    cidade_selecionada := "São Paulo (SP)",
    data_inicio := some 10, data_fim := some 12, qtd_pessoas := 100,
    categoria := "Feira", segmento := "Tecnologia", descricao := "d" }

/-- An edit form with an empty description and every other field filled in. -/
def badDescricaoEdit : EditForm :=
  { nome_evento := "Tech Fair", localEvento := "Expo Center",
    cidade_uf := "São Paulo (SP)",
    data_inicio := some 10, data_fim := some 12, qtd_pessoas := 100,
    categoria := "Feira", segmento := "Tecnologia", descricao := "" }

/-- The session of a logged-in account 7 that is not editing anything. -/
def sampleSession : Session :=
  { logged_in := true, user_id := some 7, username := some "alice",
    edit_event_id := none }

/-- The session of account 7 while editing event 1. -/
def sessEditing : Session :=
  { logged_in := true, user_id := some 7, username := some "alice",
    edit_event_id := some 1 }

/-! ## Theorems for the claims -/

/-- Claim C3: a created event appears in a subsequent `fetch_events` for
its owner with every submitted field value unchanged, and `fetch_events`
returns only rows whose `user_id` equals the queried owner. -/
theorem insert_then_fetch (db : EventStore) (uid : Nat) (f : EventFields) :
    (∃ r ∈ fetch_events (insert_event db uid f) uid,
        r.user_id = uid ∧ r.fields = f) ∧
    (∀ (db2 : EventStore) (v : Nat), ∀ r ∈ fetch_events db2 v, r.user_id = v) := by
  constructor
  · refine ⟨⟨db.nextId, uid, f⟩, ?_, rfl, rfl⟩
    simp [fetch_events, insert_event, List.mem_filter]
  · intro db2 v r hr
    have h := List.of_mem_filter hr
    simpa using h

/-- Witness for C3 at a concrete store, owner and field values. -/
theorem insert_then_fetch_witness :
    ∃ r ∈ fetch_events (insert_event ⟨[], 1⟩ 7 sampleFields) 7,
      r.user_id = 7 ∧ r.fields = sampleFields :=
  (insert_then_fetch ⟨[], 1⟩ 7 sampleFields).1

/-- Claim C4: updating an event id present in the store and then listing
shows the overwritten fields on that event, with its `id` and `user_id`
unchanged, while every other event is untouched (in both directions). -/
theorem update_then_fetch (db : EventStore) (eid : Nat) (f : EventFields) (r : EventRow)
    (hr : r ∈ db.rows) (hid : r.id = eid) :
    ({ r with fields := f } : EventRow) ∈ fetch_events (update_event db eid f) r.user_id ∧
    ({ r with fields := f } : EventRow).id = r.id ∧
    ({ r with fields := f } : EventRow).user_id = r.user_id ∧
    (∀ s ∈ db.rows, s.id ≠ eid → s ∈ (update_event db eid f).rows) ∧
    (∀ s ∈ (update_event db eid f).rows, s.id ≠ eid → s ∈ db.rows) := by
  refine ⟨?_, rfl, rfl, ?_, ?_⟩
  · have hmem : ({ r with fields := f } : EventRow) ∈ (update_event db eid f).rows := by
      unfold update_event
      simp only [List.mem_map]
      exact ⟨r, hr, by rw [if_pos hid]⟩
    simp only [fetch_events, List.mem_filter]
    exact ⟨hmem, by simp⟩
  · intro s hs hne
    unfold update_event
    simp only [List.mem_map]
    exact ⟨s, hs, by rw [if_neg hne]⟩
  · intro s hs hne
    unfold update_event at hs
    simp only [List.mem_map] at hs
    obtain ⟨x, hx, hxe⟩ := hs
    by_cases hxid : x.id = eid
    · rw [if_pos hxid] at hxe
      exfalso
      apply hne
      rw [← hxe, hxid]
    · rw [if_neg hxid] at hxe
      rwa [← hxe]

/-- Witness for C4 at a concrete two-row store. -/
theorem update_then_fetch_witness :
    ({ id := 1, user_id := 7, fields := sampleFields2 } : EventRow) ∈
      fetch_events
        (update_event ⟨[⟨1, 7, sampleFields⟩, ⟨2, 8, sampleFields⟩], 3⟩ 1 sampleFields2) 7 ∧
    (⟨2, 8, sampleFields⟩ : EventRow) ∈
      (update_event ⟨[⟨1, 7, sampleFields⟩, ⟨2, 8, sampleFields⟩], 3⟩ 1 sampleFields2).rows := by
  have h := update_then_fetch ⟨[⟨1, 7, sampleFields⟩, ⟨2, 8, sampleFields⟩], 3⟩ 1 sampleFields2
    ⟨1, 7, sampleFields⟩ (by simp) rfl
  exact ⟨h.1, h.2.2.2.1 ⟨2, 8, sampleFields⟩ (by simp) (by decide)⟩

/-- Claim C7: `update_event` overwrites the row with the given id even
when that row's owner differs from the calling account: the operation
takes no caller, and the overwritten row keeps its original owner. -/
theorem update_event_no_ownership_check (db : EventStore) (eid caller : Nat)
    (f : EventFields) (r : EventRow)
    (hr : r ∈ db.rows) (hid : r.id = eid) (_hown : r.user_id ≠ caller) :
    ({ r with fields := f } : EventRow) ∈ (update_event db eid f).rows ∧
    ({ r with fields := f } : EventRow).user_id = r.user_id := by
  refine ⟨?_, rfl⟩
  unfold update_event
  simp only [List.mem_map]
  exact ⟨r, hr, by rw [if_pos hid]⟩

/-- Witness for C7: a caller (account 99) overwrites an event owned by
account 7. -/
theorem update_event_no_ownership_check_witness :
    ({ id := 1, user_id := 7, fields := sampleFields2 } : EventRow) ∈
      (update_event ⟨[⟨1, 7, sampleFields⟩], 2⟩ 1 sampleFields2).rows :=
  (update_event_no_ownership_check ⟨[⟨1, 7, sampleFields⟩], 2⟩ 1 99 sampleFields2
    ⟨1, 7, sampleFields⟩ (by simp) rfl (by decide)).1

/-- Claim C10: when no row carries the given id, `update_event` is a
silent no-op: it completes and returns the store unchanged. -/
theorem update_event_missing_id_noop (db : EventStore) (eid : Nat) (f : EventFields)
    (h : ∀ r ∈ db.rows, r.id ≠ eid) : update_event db eid f = db := by
  unfold update_event
  cases db with
  | mk rows nextId =>
    simp only [EventStore.mk.injEq, and_true]
    calc rows.map (fun r => if r.id = eid then { r with fields := f } else r)
        = rows.map id := List.map_congr_left (fun a ha => by rw [if_neg (h a ha)]; rfl)
      _ = rows := List.map_id rows

/-- Witness for C10: updating id 5 in a store holding only id 1. -/
theorem update_event_missing_id_noop_witness :
    update_event ⟨[⟨1, 7, sampleFields⟩], 2⟩ 5 sampleFields2 =
      ⟨[⟨1, 7, sampleFields⟩], 2⟩ :=
  update_event_missing_id_noop ⟨[⟨1, 7, sampleFields⟩], 2⟩ 5 sampleFields2
    (by intro r hr; simp at hr; rw [hr]; decide)

/-- Claim C5: `login_user` answers `(True, id)` only for the id of a
stored row matching the username and password exactly; whenever some
stored row matches both fields it does answer `(True, id)` with the id
of such a row; and it answers `(False, None)` whenever no stored row
matches both fields. -/
theorem login_user_exact_match (db : UserStore) (u p : String) :
    (∀ i, login_user db u p = (true, some i) →
        ∃ r ∈ db.rows, r.id = i ∧ r.username = u ∧ r.password = p) ∧
    ((∃ r ∈ db.rows, r.username = u ∧ r.password = p) →
        ∃ r ∈ db.rows, r.username = u ∧ r.password = p ∧
          login_user db u p = (true, some r.id)) ∧
    ((∀ r ∈ db.rows, ¬(r.username = u ∧ r.password = p)) →
        login_user db u p = (false, none)) := by
  refine ⟨?_, ?_, ?_⟩
  · intro i h
    unfold login_user at h
    cases hf : db.rows.find? (fun r => r.username == u && r.password == p) with
    | none => rw [hf] at h; simp at h
    | some r =>
      rw [hf] at h
      simp only [Prod.mk.injEq, Option.some.injEq] at h
      have hm := List.mem_of_find?_eq_some hf
      have hp := List.find?_some hf
      simp only [Bool.and_eq_true, beq_iff_eq] at hp
      exact ⟨r, hm, h.2, hp.1, hp.2⟩
  · intro hex
    unfold login_user
    cases hf : db.rows.find? (fun r => r.username == u && r.password == p) with
    | none =>
      exfalso
      obtain ⟨r, hr, hu, hp⟩ := hex
      have := List.find?_eq_none.mp hf r hr
      simp [hu, hp] at this
    | some r =>
      have hm := List.mem_of_find?_eq_some hf
      have hp := List.find?_some hf
      simp only [Bool.and_eq_true, beq_iff_eq] at hp
      exact ⟨r, hm, hp.1, hp.2, rfl⟩
  · intro hno
    unfold login_user
    cases hf : db.rows.find? (fun r => r.username == u && r.password == p) with
    | none => rfl
    | some r =>
      exfalso
      have hm := List.mem_of_find?_eq_some hf
      have hp := List.find?_some hf
      simp only [Bool.and_eq_true, beq_iff_eq] at hp
      exact hno r hm ⟨hp.1, hp.2⟩

/-- Witness for C5: against a one-account store, the right credentials
produce `(true, some id)` for a matching stored row, and a wrong
password produces `(false, none)`. -/
theorem login_user_exact_match_witness :
    (∃ r ∈ (⟨[⟨1, "alice", "pw1"⟩], 2⟩ : UserStore).rows,
        r.username = "alice" ∧ r.password = "pw1" ∧
        login_user ⟨[⟨1, "alice", "pw1"⟩], 2⟩ "alice" "pw1" = (true, some r.id)) ∧
    login_user ⟨[⟨1, "alice", "pw1"⟩], 2⟩ "alice" "wrong" = (false, none) := by
  constructor
  · exact (login_user_exact_match ⟨[⟨1, "alice", "pw1"⟩], 2⟩ "alice" "pw1").2.1
      ⟨⟨1, "alice", "pw1"⟩, by simp, rfl, rfl⟩
  · exact (login_user_exact_match ⟨[⟨1, "alice", "pw1"⟩], 2⟩ "alice" "wrong").2.2
      (by intro r hr; simp at hr; rw [hr]; decide)

/-- Claim C6: registering a username already present fails with the
duplicate-username error as a returned `(False, message)` value, and the
account store is unchanged. -/
theorem register_duplicate_rejected (db : UserStore) (u p : String)
    (h : ∃ r ∈ db.rows, r.username = u) :
    (register_user db u p).1 = db ∧
    (register_user db u p).2 =
      (false, "UNIQUE constraint failed: users.username") := by
  obtain ⟨r, hr, hu⟩ := h
  have hany : db.rows.any (fun r => r.username == u) = true :=
    List.any_eq_true.2 ⟨r, hr, by simp [hu]⟩
  unfold register_user
  rw [if_pos hany]
  exact ⟨rfl, rfl⟩

/-- Witness for C6: registering "alice" twice. -/
theorem register_duplicate_rejected_witness :
    ((register_user ⟨[⟨1, "alice", "pw1"⟩], 2⟩ "alice" "pw2").1 =
        ⟨[⟨1, "alice", "pw1"⟩], 2⟩ ∧
      (register_user ⟨[⟨1, "alice", "pw1"⟩], 2⟩ "alice" "pw2").2 =
        (false, "UNIQUE constraint failed: users.username")) :=
  register_duplicate_rejected ⟨[⟨1, "alice", "pw1"⟩], 2⟩ "alice" "pw2"
    ⟨⟨1, "alice", "pw1"⟩, by simp, rfl⟩

/-- Claim C8: with the dataset absent the loader returns the empty list;
with the dataset present it returns a sorted permutation of the display
strings of every entry. -/
theorem carregar_cidades_sorted_complete (lista : List CityEntry) :
    carregar_cidades none = [] ∧
    List.Sorted (fun a b : String => a ≤ b) (carregar_cidades (some lista)) ∧
    List.Perm (carregar_cidades (some lista)) (lista.map displayCity) := by
  refine ⟨rfl, ?_, ?_⟩
  · have hs := @List.sorted_mergeSort String (fun a b : String => decide (a ≤ b))
      (fun a b c hab hbc => by
        simp only [decide_eq_true_eq] at hab hbc ⊢
        exact le_trans hab hbc)
      (fun a b => by
        simp only [Bool.or_eq_true, decide_eq_true_eq]
        exact le_total a b)
      (lista.map displayCity)
    unfold carregar_cidades
    exact List.Pairwise.imp (fun h => of_decide_eq_true h) hs
  · unfold carregar_cidades
    exact List.mergeSort_perm (lista.map displayCity) _

/-- Claim C2: a create or edit submission failing a required-field check
(empty name, venue, segment or description, no city or category chosen,
or attendance below 1 — the last being impossible because the number
widget keeps its value at 1 or above) reports an error and leaves the
event store and the whole session state unchanged. -/
theorem invalid_submission_rejected (db : EventStore) (sess : Session)
    (f : CreateForm) (g : EditForm) (eid : Nat)
    (hqf : 1 ≤ f.qtd_pessoas) (hqg : 1 ≤ g.qtd_pessoas)
    (hf : pyStrip f.nome_evento = "" ∨ pyStrip f.localEvento = "" ∨
          f.cidade_selecionada = "Selecione..." ∨ f.categoria = "Selecione..." ∨
          pyStrip f.segmento = "" ∨ pyStrip f.descricao = "" ∨ f.qtd_pessoas < 1)
    (hg : pyStrip g.nome_evento = "" ∨ pyStrip g.localEvento = "" ∨
          g.cidade_uf = "Selecione..." ∨ g.categoria = "Selecione..." ∨
          pyStrip g.segmento = "" ∨ pyStrip g.descricao = "" ∨ g.qtd_pessoas < 1) :
    ((handleCreate db sess f).1 = db ∧ (handleCreate db sess f).2.1 = sess ∧
      ∃ m, (handleCreate db sess f).2.2 = Msg.error m) ∧
    ((handleEditSave db sess eid g).1 = db ∧
      (handleEditSave db sess eid g).2.1 = sess ∧
      (handleEditSave db sess eid g).2.2 =
        Msg.error "Preencha todos os campos obrigatórios.") := by
  constructor
  · unfold handleCreate
    split_ifs with h1 h2 h3 h4 h5 h6 h7 h8
    · exact ⟨rfl, rfl, _, rfl⟩
    · exact ⟨rfl, rfl, _, rfl⟩
    · exact ⟨rfl, rfl, _, rfl⟩
    · exact ⟨rfl, rfl, _, rfl⟩
    · exact ⟨rfl, rfl, _, rfl⟩
    · exact ⟨rfl, rfl, _, rfl⟩
    · exact ⟨rfl, rfl, _, rfl⟩
    · exact ⟨rfl, rfl, _, rfl⟩
    · exfalso
      rcases hf with hx | hx | hx | hx | hx | hx | hx
      · exact h1 hx
      · exact h2 hx
      · exact h3 hx
      · exact h6 hx
      · exact h7 hx
      · exact h8 hx
      · omega
  · have hcond : pyStrip g.nome_evento = "" ∨ pyStrip g.localEvento = "" ∨
        g.cidade_uf = "Selecione..." ∨ g.categoria = "Selecione..." ∨
        pyStrip g.segmento = "" ∨ pyStrip g.descricao = "" := by
      rcases hg with hx | hx | hx | hx | hx | hx | hx
      · exact Or.inl hx
      · exact Or.inr (Or.inl hx)
      · exact Or.inr (Or.inr (Or.inl hx))
      · exact Or.inr (Or.inr (Or.inr (Or.inl hx)))
      · exact Or.inr (Or.inr (Or.inr (Or.inr (Or.inl hx))))
      · exact Or.inr (Or.inr (Or.inr (Or.inr (Or.inr hx))))
      · omega
    unfold handleEditSave
    rw [if_pos hcond]
    exact ⟨rfl, rfl, rfl⟩

/-- Witness for C2: a create submission with an empty name and an edit
submission with an empty description, both against a one-row store. -/
theorem invalid_submission_rejected_witness :
    ((handleCreate ⟨[⟨1, 7, sampleFields⟩], 2⟩ sampleSession badNameForm).1 =
        ⟨[⟨1, 7, sampleFields⟩], 2⟩ ∧
      (handleCreate ⟨[⟨1, 7, sampleFields⟩], 2⟩ sampleSession badNameForm).2.1 =
        sampleSession ∧
      ∃ m, (handleCreate ⟨[⟨1, 7, sampleFields⟩], 2⟩ sampleSession badNameForm).2.2 =
        Msg.error m) ∧
    ((handleEditSave ⟨[⟨1, 7, sampleFields⟩], 2⟩ sampleSession 1 badDescricaoEdit).1 =
        ⟨[⟨1, 7, sampleFields⟩], 2⟩ ∧
      (handleEditSave ⟨[⟨1, 7, sampleFields⟩], 2⟩ sampleSession 1 badDescricaoEdit).2.1 =
        sampleSession ∧
      (handleEditSave ⟨[⟨1, 7, sampleFields⟩], 2⟩ sampleSession 1 badDescricaoEdit).2.2 =
        Msg.error "Preencha todos os campos obrigatórios.") :=
  invalid_submission_rejected ⟨[⟨1, 7, sampleFields⟩], 2⟩ sampleSession
    badNameForm badDescricaoEdit 1 (by decide) (by decide)
    (Or.inl (by decide))
    (Or.inr (Or.inr (Or.inr (Or.inr (Or.inr (Or.inl (by decide)))))))

/-- Claim C9: every exit from the editing state clears `edit_event_id`:
when the edited id is no longer among the user's events it is reported
as not found and cleared; cancelling clears it; and a successful save
clears it. -/
theorem editing_exit_clears_edit_state (db : EventStore) (sess : Session)
    (eid : Nat) (g : EditForm) (a : EditAction)
    (heid : sess.edit_event_id = some eid)
    (hne : (fetch_events db (sess.user_id.getD 0)).isEmpty = false) :
    (((fetch_events db (sess.user_id.getD 0)).filter
          (fun r => r.id == eid)).isEmpty = true →
        (editController db sess a).2.1.edit_event_id = none ∧
        (editController db sess a).2.2 = some (Msg.error "Evento não encontrado.")) ∧
    (((fetch_events db (sess.user_id.getD 0)).filter
          (fun r => r.id == eid)).isEmpty = false →
        (editController db sess EditAction.cancel).2.1.edit_event_id = none) ∧
    (((fetch_events db (sess.user_id.getD 0)).filter
          (fun r => r.id == eid)).isEmpty = false →
        (handleEditSave db sess eid g).2.2 =
          Msg.success "Evento atualizado com sucesso!" →
        (editController db sess (EditAction.save g)).2.1.edit_event_id = none) := by
  refine ⟨?_, ?_, ?_⟩
  · intro hmiss
    unfold editController
    simp only [hne, Bool.false_eq_true, if_false, heid, hmiss, if_true]
    exact ⟨trivial, trivial⟩
  · intro hfound
    unfold editController
    simp only [hne, Bool.false_eq_true, if_false, heid, hfound]
  · intro hfound hsucc
    have hclear : (handleEditSave db sess eid g).2.1.edit_event_id = none := by
      unfold handleEditSave at hsucc ⊢
      split_ifs with hv
      · rw [if_pos hv] at hsucc
        simp at hsucc
      · rw [if_neg hv] at hsucc
        cases hsp : splitCity g.cidade_uf with
        | none => rw [hsp] at hsucc; simp at hsucc
        | some pair =>
          obtain ⟨nc, nu⟩ := pair
          rfl
    unfold editController
    simp only [hne, Bool.false_eq_true, if_false, heid, hfound]
    cases hh : handleEditSave db sess eid g with
    | mk db2 rest =>
      cases rest with
      | mk s2 m =>
        rw [hh] at hclear
        exact hclear

/-- Witness for C9: cancelling the edit of event 1 clears the edit state. -/
theorem editing_exit_clears_edit_state_witness :
    (editController ⟨[⟨1, 7, sampleFields⟩], 2⟩ sessEditing
        EditAction.cancel).2.1.edit_event_id = none :=
  (editing_exit_clears_edit_state ⟨[⟨1, 7, sampleFields⟩], 2⟩ sessEditing 1
    badDescricaoEdit EditAction.cancel rfl (by decide)).2.1 (by decide)

/-! ## Lemmas on the string primitives, toward the C1 characterization -/

/-- Being an initial segment only looks at the first `pat.length` items. -/
theorem leadsWith_append_of_le (pat l m : List Char) (h : pat.length ≤ l.length) :
    leadsWith pat (l ++ m) = leadsWith pat l := by
  induction pat generalizing l with
  | nil => rfl
  | cons p ps ih =>
    cases l with
    | nil => simp at h
    | cons c t =>
      simp only [List.cons_append, leadsWith, List.append_eq]
      rw [ih t (by simpa using h)]

/-- A substring of the right half occurs in the concatenation. -/
theorem containsSub_append_right (pat l m : List Char)
    (h : containsSub pat m = true) : containsSub pat (l ++ m) = true := by
  induction l with
  | nil => simpa using h
  | cons c t ih =>
    simp only [List.cons_append, containsSub, List.append_eq]
    rw [ih]
    exact Bool.or_true _

/-- A substring present in the tail is present in the whole list. -/
theorem containsSub_cons (pat : List Char) (c : Char) (t : List Char)
    (h : containsSub pat t = true) : containsSub pat (c :: t) = true := by
  simp only [containsSub]
  rw [h]
  exact Bool.or_true _

/-- Where the pattern does not occur, `lastSplit` finds nothing. -/
theorem lastSplit_eq_none (pat l : List Char) (h : containsSub pat l = false) :
    lastSplit pat l = none := by
  induction l with
  | nil => rfl
  | cons c t ih =>
    simp only [containsSub, Bool.or_eq_false_iff] at h
    unfold lastSplit
    rw [ih h.2]
    simp [h.1]

/-- `lastSplit` keeps looking into the suffix: prepending to a list in
which the pattern occurs prepends to the left part of the split. -/
theorem lastSplit_append (pat l m l2 r : List Char)
    (h : lastSplit pat m = some (l2, r)) :
    lastSplit pat (l ++ m) = some (l ++ l2, r) := by
  induction l with
  | nil => simpa using h
  | cons c t ih =>
    simp only [List.cons_append]
    unfold lastSplit
    rw [ih]

/-- Appending a closing parenthesis cannot create an occurrence of the
delimiter `" ("`. -/
theorem containsSub_delim_snoc (l : List Char)
    (h : containsSub [' ', '('] l = false) :
    containsSub [' ', '('] (l ++ [')']) = false := by
  induction l with
  | nil => decide
  | cons c t ih =>
    simp only [containsSub, Bool.or_eq_false_iff] at h
    simp only [List.cons_append, containsSub, Bool.or_eq_false_iff]
    refine ⟨?_, ih h.2⟩
    cases t with
    | nil => simp [leadsWith]
    | cons d t' =>
      have h1 := h.1
      simp only [leadsWith] at h1 ⊢
      simpa using h1

/-- The last occurrence of `" ("` in `nome ++ " (" ++ uf ++ ")"` is the
displayed one, provided `uf` itself contains no `" ("`. -/
theorem lastSplit_display (nome uf : List Char)
    (h : containsSub [' ', '('] uf = false) :
    lastSplit [' ', '('] (nome ++ ' ' :: '(' :: (uf ++ [')'])) =
      some (nome, uf ++ [')']) := by
  have h1 : lastSplit [' ', '('] (uf ++ [')']) = none :=
    lastSplit_eq_none _ _ (containsSub_delim_snoc uf h)
  have h2 : lastSplit [' ', '('] ('(' :: (uf ++ [')'])) = none := by
    unfold lastSplit
    rw [h1]
    simp [leadsWith]
  have h3 : lastSplit [' ', '('] (' ' :: '(' :: (uf ++ [')'])) =
      some ([], uf ++ [')']) := by
    unfold lastSplit
    rw [h2]
    simp [leadsWith]
  have h4 := lastSplit_append [' ', '('] nome _ _ _ h3
  simpa using h4

/-- A character that never occurs is never filtered out. -/
theorem filter_ne_of_not_containsSub (c : Char) (l : List Char)
    (h : containsSub [c] l = false) :
    l.filter (fun x => x != c) = l := by
  induction l with
  | nil => rfl
  | cons d t ih =>
    simp only [containsSub, Bool.or_eq_false_iff, leadsWith] at h
    have hcd : ¬(c = d) := by simpa using h.1
    rw [List.filter_cons_of_pos (by simp [bne_iff_ne]; exact fun he => hcd he.symm)]
    rw [ih h.2]

/-- Claim C1 is false as stated: the string "x (y" contains the
delimiter `" ("`, so the claimed rule decomposes it into city "x" and
state "y" (as `splitCitySpec` does), but the code's guard demands a
`")"` as well and instead yields the whole string with an empty state. -/
theorem splitCity_claim_counterexample :
    splitCitySpec "x (y" = ("x", "y") ∧
    splitCity "x (y" = some ("x (y", "") ∧
    splitCity "x (y" ≠ some (splitCitySpec "x (y") :=
  ⟨by decide, by decide, by decide⟩

/-- Claim C1 (amended): the decomposition only splits when the display
string contains both `"("` and `")"`.  A string `Name ++ " (" ++ STATE ++
")"` in which `STATE` contains neither `" ("` nor `")"` is split at that
last `" ("` into the stripped name and the stripped state; a string
lacking `"("` or lacking `")"` becomes, stripped, the city name with an
empty state code.  In particular "São Paulo (SP)" yields
("São Paulo", "SP") and "Brasília" yields ("Brasília", ""). -/
theorem splitCity_characterization :
    (∀ nome uf : String, containsSub [' ', '('] uf.data = false →
        containsSub [')'] uf.data = false →
        splitCity (nome ++ " (" ++ uf ++ ")") = some (pyStrip nome, pyStrip uf)) ∧
    (∀ s : String, (containsSub ['('] s.data && containsSub [')'] s.data) = false →
        splitCity s = some (pyStrip s, "")) ∧
    splitCity "São Paulo (SP)" = some ("São Paulo", "SP") ∧
    splitCity "Brasília" = some ("Brasília", "") := by
  refine ⟨?_, ?_, by decide, by decide⟩
  · intro nome uf h1 h2
    have hdata : (nome ++ " (" ++ uf ++ ")").data =
        nome.data ++ ' ' :: '(' :: (uf.data ++ [')']) := by
      simp [String.data_append]
    have hg1 : containsSub ['('] (nome.data ++ ' ' :: '(' :: (uf.data ++ [')'])) = true := by
      apply containsSub_append_right
      apply containsSub_cons
      simp [containsSub, leadsWith]
    have hg2 : containsSub [')'] (nome.data ++ ' ' :: '(' :: (uf.data ++ [')'])) = true := by
      apply containsSub_append_right
      apply containsSub_cons
      apply containsSub_cons
      apply containsSub_append_right
      decide
    unfold splitCity
    rw [hdata, hg1, hg2]
    simp only [Bool.and_self, if_true]
    rw [lastSplit_display nome.data uf.data h1]
    have hfil : (uf.data ++ [')']).filter (fun x => x != ')') = uf.data := by
      rw [List.filter_append, filter_ne_of_not_containsSub ')' uf.data h2]
      simp
    simp only [hfil]
    rfl
  · intro s h
    unfold splitCity
    rw [h]
    simp

/-- Witness for C1: the characterization applied to the display string
built from "São Paulo" and "SP", and to the plain string "Brasília". -/
theorem splitCity_characterization_witness :
    splitCity ("São Paulo" ++ " (" ++ "SP" ++ ")") =
      some (pyStrip "São Paulo", pyStrip "SP") ∧
    splitCity "Brasília" = some (pyStrip "Brasília", "") :=
  ⟨splitCity_characterization.1 "São Paulo" "SP" (by decide) (by decide),
   splitCity_characterization.2.1 "Brasília" (by decide)⟩

end Feiras
